import Mathlib

/-!
# xzdec: the streaming-decompression boundary around liblzma

Shallow embedding of `src/infrastructure/xzdec/xzdec.c`.

* A handle (`struct Xzdec`) is a value; a C function taking `struct Xzdec *`
  becomes a function from the old handle value to the new one.
* The store `*output_buf_len = ...` is a four-byte store into memory; the stored
  value is also a component of the result.  The out-parameter `*xzdec_ptr`
  becomes a component of the result.
* The codec engine (liblzma) is not part of the sources.  Its two entry points
  used by the wrapper, `lzma_stream_decoder` and `lzma_code`, are the fields of
  an `Engine` record every wrapper function is parameterised by.
* Memory is one flat byte-addressed space (`Mem`), shared by host, wrapper and engine.
* `uint32_t` is `Nat` with explicit reduction modulo `2 ^ 32` where the C code
  converts or subtracts.
-/

set_option autoImplicit false

namespace XZ

/-! ## Machine integers and memory -/

/-- Conversion of a value to `uint32_t`. -/
def to_u32 (n : Nat) : Nat := n % 2 ^ 32

/-- The C expression `a - b` with `a : uint32_t` and `b : size_t`, stored into a
`uint32_t`.  Whatever the width of `size_t` (32 bits on wasm32, 64 bits
elsewhere) the stored value is the difference modulo `2 ^ 32`. -/
def sub_u32 (a b : Nat) : Nat := (a + 2 ^ 32 - b % 2 ^ 32) % 2 ^ 32

/-- Flat memory: address to byte. -/
abbrev Mem := Nat → Nat

/-- Memory with one byte replaced. -/
def Mem.write (m : Mem) (addr val : Nat) : Mem := fun i => if i = addr then val else m i

/-- The `n` bytes of memory starting at address `p`. -/
def Mem.read (m : Mem) (p : Nat) : Nat → List Nat
  | 0 => []
  | n + 1 => m p :: Mem.read m (p + 1) n

/-- Memory after the bytes `bs` have been copied to address `p`. -/
def Mem.store (m : Mem) (p : Nat) : List Nat → Mem
  | [] => m
  | b :: bs => Mem.store (m.write p b) (p + 1) bs

/-- Memory after a `uint32_t` store of `val` at address `addr` (four bytes,
least significant first, as on wasm32). -/
def Mem.store32 (m : Mem) (addr val : Nat) : Mem :=
  m.store addr [val % 256, val / 256 % 256, val / 65536 % 256, val / 16777216 % 256]

/-- The `uint32_t` held in the four bytes at address `addr`. -/
def Mem.load32 (m : Mem) (addr : Nat) : Nat :=
  m addr + 256 * m (addr + 1) + 65536 * m (addr + 2) + 16777216 * m (addr + 3)

/-! ## The liblzma interface used by the wrapper -/

/-- Modelled from the liblzma API header `lzma/base.h`, which is not part of the
repository sources: the enumeration `lzma_ret`. -/
inductive lzma_ret
  | LZMA_OK
  | LZMA_STREAM_END
  | LZMA_NO_CHECK
  | LZMA_UNSUPPORTED_CHECK
  | LZMA_GET_CHECK
  | LZMA_MEM_ERROR
  | LZMA_MEMLIMIT_ERROR
  | LZMA_FORMAT_ERROR
  | LZMA_OPTIONS_ERROR
  | LZMA_DATA_ERROR
  | LZMA_BUF_ERROR
  | LZMA_PROG_ERROR
  | LZMA_SEEK_NEEDED
  deriving DecidableEq, Repr

/-- Numeric value of each `lzma_ret` enumerator. -/
def lzma_ret.toNat : lzma_ret → Nat
  | .LZMA_OK => 0
  | .LZMA_STREAM_END => 1
  | .LZMA_NO_CHECK => 2
  | .LZMA_UNSUPPORTED_CHECK => 3
  | .LZMA_GET_CHECK => 4
  | .LZMA_MEM_ERROR => 5
  | .LZMA_MEMLIMIT_ERROR => 6
  | .LZMA_FORMAT_ERROR => 7
  | .LZMA_OPTIONS_ERROR => 8
  | .LZMA_DATA_ERROR => 9
  | .LZMA_BUF_ERROR => 10
  | .LZMA_PROG_ERROR => 11
  | .LZMA_SEEK_NEEDED => 12

/-- Modelled from the liblzma API header `lzma/base.h`, which is not part of the
repository sources: the enumeration `lzma_action`. -/
inductive lzma_action
  | LZMA_RUN
  | LZMA_SYNC_FLUSH
  | LZMA_FULL_FLUSH
  | LZMA_FINISH
  | LZMA_FULL_BARRIER
  deriving DecidableEq, Repr

/-- Modelled from the liblzma API header `lzma/base.h`, which is not part of the
repository sources: the public cursor fields of `lzma_stream`.  Everything the
engine keeps privately behind the `internal` pointer (and the allocator and
reserved members) is the component `internal`; `none` is the null pointer. -/
structure lzma_stream (ι : Type) where
  next_in : Nat
  avail_in : Nat
  total_in : Nat
  next_out : Nat
  avail_out : Nat
  total_out : Nat
  internal : Option ι

/-- Modelled from the liblzma API header `lzma/base.h`, which is not part of the
repository sources: the initialiser macro `LZMA_STREAM_INIT` (all members zero
or null). -/
def LZMA_STREAM_INIT {ι : Type} : lzma_stream ι :=
  { next_in := 0, avail_in := 0, total_in := 0
    next_out := 0, avail_out := 0, total_out := 0
    internal := none }

/-- Outcome of `lzma_stream_decoder(&stream, memlimit, flags)`. -/
structure InitStep (ι : Type) where
  rc : lzma_ret
  strm : lzma_stream ι

/-- Outcome of `lzma_code(&stream, action)`: the status, the updated stream and
the memory after the engine has written its output. -/
structure CodeStep (ι : Type) where
  rc : lzma_ret
  strm : lzma_stream ι
  mem : Mem

/-- The codec engine: the two liblzma entry points the wrapper calls. -/
structure Engine (ι : Type) where
  lzma_stream_decoder : lzma_stream ι → Nat → Nat → InitStep ι
  lzma_code : lzma_stream ι → lzma_action → Mem → CodeStep ι

/-! ## The wrapper (`xzdec.c`) -/

/-- The C type `xzdec_lzma_ret`, a `uint32_t`. -/
abbrev xzdec_lzma_ret := Nat

/-- The handle `struct Xzdec`. -/
structure Xzdec (ι : Type) where
  stream : lzma_stream ι

/-- Outcome of `xzdec_new_stream_decoder`: the returned status, what the
out-parameter `*xzdec_ptr` refers to afterwards, and how many blocks of handle
storage the call obtained from `malloc`. -/
structure NewResult (ι : Type) where
  rc : xzdec_lzma_ret
  xzdec_ptr : Option (Xzdec ι)
  allocated : Nat

/-- The C function `xzdec_new_stream_decoder`.  `xzdec_ptr` is what the
out-parameter refers to before the call; `malloc_ok` tells whether `malloc`
returns storage.  When it returns null the store through `*xzdec_ptr` is
undefined, which is the result `none`. -/
def xzdec_new_stream_decoder {ι : Type} (E : Engine ι) (malloc_ok : Bool)
    (memlimit flags : Nat) (xzdec_ptr : Option (Xzdec ι)) : Option (NewResult ι) :=
  let stream : lzma_stream ι := LZMA_STREAM_INIT
  let r := E.lzma_stream_decoder stream memlimit flags
  if r.rc ≠ lzma_ret.LZMA_OK then
    some { rc := to_u32 r.rc.toNat, xzdec_ptr := xzdec_ptr, allocated := 0 }
  else if malloc_ok then
    some { rc := to_u32 lzma_ret.LZMA_OK.toNat, xzdec_ptr := some { stream := r.strm }
           allocated := 1 }
  else
    none

/-- The C function `xzdec_input_empty`, with the handle it was given passed back. -/
def xzdec_input_empty {ι : Type} (xzdec : Xzdec ι) : Nat × Xzdec ι :=
  if xzdec.stream.avail_in = 0 then (1, xzdec) else (0, xzdec)

/-- The C function `xzdec_set_input`. -/
def xzdec_set_input {ι : Type} (xzdec : Xzdec ι) (input_buf input_buf_len : Nat) : Xzdec ι :=
  let s1 := { xzdec.stream with next_in := input_buf }
  { stream := { s1 with avail_in := input_buf_len } }

/-- Outcome of `xzdec_next_output` and `xzdec_finish`: the returned status, the
value stored through the pointer `output_buf_len`, the handle, and the memory
afterwards (with that store made). -/
structure OutputResult (ι : Type) where
  rc : xzdec_lzma_ret
  output_buf_len : Nat
  xzdec : Xzdec ι
  mem : Mem

/-- The C function `xzdec_next_output`.  `output_buf_len` is the address the
count is stored at. -/
def xzdec_next_output {ι : Type} (E : Engine ι) (xzdec : Xzdec ι)
    (output_buf output_buf_cap output_buf_len : Nat) (mem : Mem) : OutputResult ι :=
  let s1 := { xzdec.stream with next_out := output_buf }
  let s2 := { s1 with avail_out := output_buf_cap }
  let r := E.lzma_code s2 lzma_action.LZMA_RUN mem
  { rc := to_u32 r.rc.toNat
    output_buf_len := sub_u32 output_buf_cap r.strm.avail_out
    xzdec := { stream := r.strm }
    mem := r.mem.store32 output_buf_len (sub_u32 output_buf_cap r.strm.avail_out) }

/-- The C function `xzdec_finish`.  `output_buf_len` is the address the count
is stored at. -/
def xzdec_finish {ι : Type} (E : Engine ι) (xzdec : Xzdec ι)
    (output_buf output_buf_cap output_buf_len : Nat) (mem : Mem) : OutputResult ι :=
  let s1 := { xzdec.stream with next_out := output_buf }
  let s2 := { s1 with avail_out := output_buf_cap }
  let r := E.lzma_code s2 lzma_action.LZMA_FINISH mem
  { rc := to_u32 r.rc.toNat
    output_buf_len := sub_u32 output_buf_cap r.strm.avail_out
    xzdec := { stream := r.strm }
    mem := r.mem.store32 output_buf_len (sub_u32 output_buf_cap r.strm.avail_out) }

/-- The stream handed to the engine by `xzdec_next_output` and `xzdec_finish`:
the handle's stream with the output window `(output_buf, output_buf_cap)`
registered. -/
def registered {ι : Type} (xzdec : Xzdec ι) (output_buf output_buf_cap : Nat) : lzma_stream ι :=
  { xzdec.stream with next_out := output_buf, avail_out := output_buf_cap }

/-! ## Properties of an engine referred to by the statements below -/

/-- The engine step never increases the remaining output space. -/
def KeepsOutputSpace {ι : Type} (E : Engine ι) : Prop :=
  ∀ (s : lzma_stream ι) (a : lzma_action) (m : Mem), (E.lzma_code s a m).strm.avail_out ≤ s.avail_out

/-- The decoder initialisation leaves the input window of the stream it is
given as it was. -/
def InitKeepsInputWindow {ι : Type} (E : Engine ι) : Prop :=
  ∀ (s : lzma_stream ι) (memlimit flags : Nat),
    (E.lzma_stream_decoder s memlimit flags).strm.next_in = s.next_in ∧
    (E.lzma_stream_decoder s memlimit flags).strm.avail_in = s.avail_in

/-- The engine step ignores the action it is given. -/
def IgnoresAction {ι : Type} (E : Engine ι) : Prop :=
  ∀ (s : lzma_stream ι) (a a' : lzma_action) (m : Mem), E.lzma_code s a m = E.lzma_code s a' m

/-- The operation the specification describes for both `produce_output` and
`finish`: register the output window, run one engine step with the given
action, report the status unchanged and store the bytes written, the capacity
minus the space left, through `output_buf_len`. -/
def produce_with {ι : Type} (E : Engine ι) (action : lzma_action) (xzdec : Xzdec ι)
    (output_buf output_buf_cap output_buf_len : Nat) (mem : Mem) : OutputResult ι :=
  let r := E.lzma_code (registered xzdec output_buf output_buf_cap) action mem
  { rc := r.rc.toNat
    output_buf_len := sub_u32 output_buf_cap r.strm.avail_out
    xzdec := { stream := r.strm }
    mem := r.mem.store32 output_buf_len (sub_u32 output_buf_cap r.strm.avail_out) }

/-! ## A small concrete engine

A byte-at-a-time engine for a toy container format, used as a concrete instance
of `Engine`: every non-zero byte is a literal that decodes to itself and a zero
byte marks the end of the stream.  It follows the cursor protocol of
`lzma_stream`. -/

/-- Private state of the toy engine. -/
structure ToyState where
  ended : Bool
  deriving DecidableEq, Repr

/-- Initialisation of the toy engine: unknown flag bits are refused. -/
def toy_stream_decoder (s : lzma_stream ToyState) (_memlimit flags : Nat) : InitStep ToyState :=
  if 64 ≤ flags then
    { rc := lzma_ret.LZMA_OPTIONS_ERROR, strm := s }
  else
    { rc := lzma_ret.LZMA_OK
      strm := { s with total_in := 0, total_out := 0, internal := some { ended := false } } }

/-- One step of the toy engine: at most one input byte is consumed. -/
def toy_code (s : lzma_stream ToyState) (_action : lzma_action) (m : Mem) : CodeStep ToyState :=
  match s.internal with
  | none => { rc := lzma_ret.LZMA_PROG_ERROR, strm := s, mem := m }
  | some st =>
    if st.ended then
      { rc := lzma_ret.LZMA_STREAM_END, strm := s, mem := m }
    else if s.avail_in = 0 then
      { rc := lzma_ret.LZMA_BUF_ERROR, strm := s, mem := m }
    else if m s.next_in = 0 then
      { rc := lzma_ret.LZMA_STREAM_END
        strm := { s with next_in := s.next_in + 1, avail_in := s.avail_in - 1
                         total_in := s.total_in + 1, internal := some { ended := true } }
        mem := m }
    else if s.avail_out = 0 then
      { rc := lzma_ret.LZMA_BUF_ERROR, strm := s, mem := m }
    else
      { rc := lzma_ret.LZMA_OK
        strm := { s with next_in := s.next_in + 1, avail_in := s.avail_in - 1
                         total_in := s.total_in + 1
                         next_out := s.next_out + 1, avail_out := s.avail_out - 1
                         total_out := s.total_out + 1 }
        mem := m.write s.next_out (m s.next_in) }

/-- The toy engine. -/
def toyEngine : Engine ToyState :=
  { lzma_stream_decoder := toy_stream_decoder, lzma_code := toy_code }

/-- A handle of the toy engine right after creation. -/
def toyFresh : Xzdec ToyState :=
  { stream := { (LZMA_STREAM_INIT : lzma_stream ToyState) with internal := some { ended := false } } }

/-- A memory holding the bytes `7, 9, 0` at addresses `100, 101, 102` and zero elsewhere. -/
def toyMem : Mem := fun i => if i = 100 then 7 else if i = 101 then 9 else 0

/-! ## Sequences of calls on one handle -/

/-- One call of the wrapper on a handle, with its arguments. -/
inductive Call
  | set_input (input_buf input_buf_len : Nat)
  | input_empty
  | next_output (output_buf output_buf_cap output_buf_len : Nat)
  | finish (output_buf output_buf_cap output_buf_len : Nat)

/-- A handle in use: the handle, the memory, and what every call so far has
returned (nothing for `xzdec_set_input`, the flag for `xzdec_input_empty`, the
status and the stored `*output_buf_len` for `xzdec_next_output` and
`xzdec_finish`). -/
structure Session (ι : Type) where
  xzdec : Xzdec ι
  mem : Mem
  returned : List (List Nat)

/-- Effect of one call. -/
def Session.call {ι : Type} (E : Engine ι) (s : Session ι) : Call → Session ι
  | .set_input input_buf input_buf_len =>
    { s with xzdec := xzdec_set_input s.xzdec input_buf input_buf_len
             returned := s.returned ++ [[]] }
  | .input_empty =>
    { s with xzdec := (xzdec_input_empty s.xzdec).2
             returned := s.returned ++ [[(xzdec_input_empty s.xzdec).1]] }
  | .next_output output_buf output_buf_cap output_buf_len =>
    let r := xzdec_next_output E s.xzdec output_buf output_buf_cap output_buf_len s.mem
    { xzdec := r.xzdec, mem := r.mem, returned := s.returned ++ [[r.rc, r.output_buf_len]] }
  | .finish output_buf output_buf_cap output_buf_len =>
    let r := xzdec_finish E s.xzdec output_buf output_buf_cap output_buf_len s.mem
    { xzdec := r.xzdec, mem := r.mem, returned := s.returned ++ [[r.rc, r.output_buf_len]] }

/-- Effect of a sequence of calls. -/
def Session.calls {ι : Type} (E : Engine ι) (s : Session ι) (cs : List Call) : Session ι :=
  cs.foldl (Session.call E) s

/-- The handle `x` with the output cursor of its stream replaced by `(a, b)`. -/
def withOutputCursor {ι : Type} (x : Xzdec ι) (a b : Nat) : Xzdec ι :=
  { stream := { x.stream with next_out := a, avail_out := b } }

/-- Two sessions that agree on everything but the output cursor held in the handle. -/
def Session.agree {ι : Type} (s₁ s₂ : Session ι) : Prop :=
  s₁.returned = s₂.returned ∧ s₁.mem = s₂.mem
    ∧ ∃ a b : Nat, s₁.xzdec = withOutputCursor s₂.xzdec a b

/-! ## A host decompressing a stream in chunks

The host side of the push/pull protocol.  For every chunk of compressed bytes
the host copies the chunk into memory, registers it with `xzdec_set_input`, and
drains it: it calls `xzdec_next_output` on an output buffer, reads the count the
call stored, collects that many bytes from the front of the buffer, and repeats
until the input is exhausted and the last buffer was not filled. -/

theorem lzma_ret_toNat_lt (r : lzma_ret) : r.toNat < 2 ^ 32 := by
  cases r <;> simp [lzma_ret.toNat]

theorem to_u32_toNat (r : lzma_ret) : to_u32 r.toNat = r.toNat := by
  unfold to_u32
  exact Nat.mod_eq_of_lt (lzma_ret_toNat_lt r)

theorem lzma_ret_toNat_injective : Function.Injective lzma_ret.toNat := by
  intro a b h
  cases a <;> cases b <;> simp [lzma_ret.toNat] at h <;> rfl

theorem sub_u32_of_le {a b : Nat} (hb : b ≤ a) (ha : a < 2 ^ 32) : sub_u32 a b = a - b := by
  unfold sub_u32
  have hb2 : b % 2 ^ 32 = b := Nat.mod_eq_of_lt (lt_of_le_of_lt hb ha)
  rw [hb2]
  omega

/-! ### Memory lemmas -/

theorem Mem.store_outside (bs : List Nat) :
    ∀ (m : Mem) (p a : Nat), a < p ∨ p + bs.length ≤ a → (m.store p bs) a = m a := by
  induction bs with
  | nil => intro m p a _; rfl
  | cons b bs ih =>
    intro m p a h
    simp only [Mem.store]
    have hlen : (b :: bs).length = bs.length + 1 := rfl
    rw [hlen] at h
    rw [ih (m.write p b) (p + 1) a (by omega)]
    have hne : a ≠ p := by omega
    simp [Mem.write, hne]

theorem Mem.read_store (bs : List Nat) :
    ∀ (m : Mem) (p : Nat), (m.store p bs).read p bs.length = bs := by
  induction bs with
  | nil => intro m p; rfl
  | cons b bs ih =>
    intro m p
    simp only [Mem.store, List.length_cons, Mem.read]
    rw [ih (m.write p b) (p + 1), Mem.store_outside bs (m.write p b) (p + 1) p (by omega)]
    simp [Mem.write]

theorem Mem.load32_store32 (m : Mem) (l v : Nat) (hv : v < 2 ^ 32) :
    (m.store32 l v).load32 l = v := by
  have h := Mem.read_store [v % 256, v / 256 % 256, v / 65536 % 256, v / 16777216 % 256] m l
  simp only [List.length_cons, List.length_nil, Mem.read, List.cons.injEq, and_true] at h
  obtain ⟨h0, h1, h2, h3⟩ := h
  unfold Mem.load32 Mem.store32
  have e1 : l + 1 + 1 = l + 2 := rfl
  have e2 : l + 1 + 1 + 1 = l + 3 := rfl
  rw [e1] at h2
  rw [e2] at h3
  rw [h0, h1, h2, h3]
  omega

theorem sub_u32_lt (a b : Nat) : sub_u32 a b < 2 ^ 32 := by
  unfold sub_u32
  exact Nat.mod_lt _ (by norm_num)

theorem toy_keepsOutputSpace : KeepsOutputSpace toyEngine := by
  intro s a m
  show (toy_code s a m).strm.avail_out ≤ s.avail_out
  unfold toy_code
  cases s.internal with
  | none => simp
  | some st =>
    simp only
    split_ifs <;> simp

theorem toy_initKeepsInputWindow : InitKeepsInputWindow toyEngine := by
  intro s memlimit flags
  show (toy_stream_decoder s memlimit flags).strm.next_in = s.next_in ∧
    (toy_stream_decoder s memlimit flags).strm.avail_in = s.avail_in
  unfold toy_stream_decoder
  split_ifs <;> simp

theorem toy_ignoresAction : IgnoresAction toyEngine := by
  intro s a a' m
  rfl

/-- C1. The status returned by `xzdec_next_output` and by `xzdec_finish` is the
numeric value of the status the single engine step returned, for every handle,
output pointer, capacity and memory; the numeric value determines the status
(no two statuses are merged), and the handle left behind is the stream after
that one step (no retry). -/
theorem status_relay {ι : Type} (E : Engine ι) (x : Xzdec ι)
    (output_buf output_buf_cap output_buf_len : Nat) (mem : Mem) :
    (xzdec_next_output E x output_buf output_buf_cap output_buf_len mem).rc
        = (E.lzma_code (registered x output_buf output_buf_cap) lzma_action.LZMA_RUN mem).rc.toNat
    ∧ (xzdec_finish E x output_buf output_buf_cap output_buf_len mem).rc
        = (E.lzma_code (registered x output_buf output_buf_cap) lzma_action.LZMA_FINISH mem).rc.toNat
    ∧ (xzdec_next_output E x output_buf output_buf_cap output_buf_len mem).xzdec.stream
        = (E.lzma_code (registered x output_buf output_buf_cap) lzma_action.LZMA_RUN mem).strm
    ∧ (xzdec_finish E x output_buf output_buf_cap output_buf_len mem).xzdec.stream
        = (E.lzma_code (registered x output_buf output_buf_cap) lzma_action.LZMA_FINISH mem).strm
    ∧ Function.Injective lzma_ret.toNat := by
  refine ⟨?_, ?_, rfl, rfl, lzma_ret_toNat_injective⟩
  · exact to_u32_toNat _
  · exact to_u32_toNat _

/-- C2. For an engine whose step never increases the remaining output space and
a capacity that is a 32-bit value, the count stored in `*output_buf_len` by
`xzdec_next_output` and by `xzdec_finish` is at most the capacity and equals the
capacity minus the output space the engine step left unused, which is itself at
most the capacity; the stored count is that difference as computed in unsigned
32-bit arithmetic (`sub_u32`), and it is what the four bytes at `output_buf_len`
hold after the call. -/
theorem bytes_written_bounded {ι : Type} (E : Engine ι) (hE : KeepsOutputSpace E) (x : Xzdec ι)
    (output_buf output_buf_cap output_buf_len : Nat) (mem : Mem) (hcap : output_buf_cap < 2 ^ 32) :
    (xzdec_next_output E x output_buf output_buf_cap output_buf_len mem).output_buf_len ≤ output_buf_cap
    ∧ (xzdec_next_output E x output_buf output_buf_cap output_buf_len mem).output_buf_len
        = output_buf_cap
          - (E.lzma_code (registered x output_buf output_buf_cap) lzma_action.LZMA_RUN mem).strm.avail_out
    ∧ (E.lzma_code (registered x output_buf output_buf_cap) lzma_action.LZMA_RUN mem).strm.avail_out
        ≤ output_buf_cap
    ∧ (xzdec_finish E x output_buf output_buf_cap output_buf_len mem).output_buf_len ≤ output_buf_cap
    ∧ (xzdec_finish E x output_buf output_buf_cap output_buf_len mem).output_buf_len
        = output_buf_cap
          - (E.lzma_code (registered x output_buf output_buf_cap) lzma_action.LZMA_FINISH mem).strm.avail_out
    ∧ (E.lzma_code (registered x output_buf output_buf_cap) lzma_action.LZMA_FINISH mem).strm.avail_out
        ≤ output_buf_cap
    ∧ (xzdec_next_output E x output_buf output_buf_cap output_buf_len mem).output_buf_len
        = sub_u32 output_buf_cap
            (E.lzma_code (registered x output_buf output_buf_cap) lzma_action.LZMA_RUN
              mem).strm.avail_out
    ∧ (xzdec_finish E x output_buf output_buf_cap output_buf_len mem).output_buf_len
        = sub_u32 output_buf_cap
            (E.lzma_code (registered x output_buf output_buf_cap) lzma_action.LZMA_FINISH
              mem).strm.avail_out
    ∧ (xzdec_next_output E x output_buf output_buf_cap output_buf_len mem).mem.load32 output_buf_len
        = (xzdec_next_output E x output_buf output_buf_cap output_buf_len mem).output_buf_len
    ∧ (xzdec_finish E x output_buf output_buf_cap output_buf_len mem).mem.load32 output_buf_len
        = (xzdec_finish E x output_buf output_buf_cap output_buf_len mem).output_buf_len := by
  have h1 := hE (registered x output_buf output_buf_cap) lzma_action.LZMA_RUN mem
  have h2 := hE (registered x output_buf output_buf_cap) lzma_action.LZMA_FINISH mem
  have e1 : (xzdec_next_output E x output_buf output_buf_cap output_buf_len mem).output_buf_len
      = sub_u32 output_buf_cap
          (E.lzma_code (registered x output_buf output_buf_cap) lzma_action.LZMA_RUN
            mem).strm.avail_out :=
    rfl
  have e2 : (xzdec_finish E x output_buf output_buf_cap output_buf_len mem).output_buf_len
      = sub_u32 output_buf_cap
          (E.lzma_code (registered x output_buf output_buf_cap) lzma_action.LZMA_FINISH
            mem).strm.avail_out :=
    rfl
  have r1 : (registered x output_buf output_buf_cap).avail_out = output_buf_cap := rfl
  rw [r1] at h1 h2
  have d1 := e1.trans (sub_u32_of_le h1 hcap)
  have d2 := e2.trans (sub_u32_of_le h2 hcap)
  exact ⟨d1 ▸ Nat.sub_le _ _, d1, h1, d2 ▸ Nat.sub_le _ _, d2, h2, e1, e2,
    Mem.load32_store32 _ _ _ (sub_u32_lt _ _), Mem.load32_store32 _ _ _ (sub_u32_lt _ _)⟩

/-- Witness of C2: the toy engine, a fresh handle with the window `(100, 2)`,
and an output buffer of capacity `1` at address `200`. -/
theorem bytes_written_bounded_witness :
    KeepsOutputSpace toyEngine ∧ (1 : Nat) < 2 ^ 32
    ∧ (xzdec_next_output toyEngine (xzdec_set_input toyFresh 100 2) 200 1 400 toyMem).output_buf_len = 1 := by
  have h := bytes_written_bounded toyEngine toy_keepsOutputSpace (xzdec_set_input toyFresh 100 2)
    200 1 400 toyMem (by norm_num)
  refine ⟨toy_keepsOutputSpace, by norm_num, ?_⟩
  rw [h.2.1]
  decide

/-- C3. When the engine's decoder initialisation returns a status other than
`LZMA_OK`, `xzdec_new_stream_decoder` returns the numeric value of exactly that
status, leaves the out-parameter referring to what it referred to before and
allocates no handle storage, whatever `malloc` would have done. -/
theorem failed_creation {ι : Type} (E : Engine ι) (malloc_ok : Bool) (memlimit flags : Nat)
    (xzdec_ptr : Option (Xzdec ι))
    (hrc : (E.lzma_stream_decoder LZMA_STREAM_INIT memlimit flags).rc ≠ lzma_ret.LZMA_OK) :
    xzdec_new_stream_decoder E malloc_ok memlimit flags xzdec_ptr
      = some { rc := (E.lzma_stream_decoder LZMA_STREAM_INIT memlimit flags).rc.toNat
               xzdec_ptr := xzdec_ptr
               allocated := 0 } := by
  unfold xzdec_new_stream_decoder
  simp only [hrc, ne_eq, not_false_eq_true, if_true, to_u32_toNat]

/-- Witness of C3: the toy engine refuses the flags `64`; the status returned
is `LZMA_OPTIONS_ERROR` (8). -/
theorem failed_creation_witness :
    (toyEngine.lzma_stream_decoder LZMA_STREAM_INIT 1000 64).rc ≠ lzma_ret.LZMA_OK
    ∧ xzdec_new_stream_decoder toyEngine true 1000 64 none
        = some { rc := 8, xzdec_ptr := none, allocated := 0 } := by
  have hrc : (toyEngine.lzma_stream_decoder LZMA_STREAM_INIT 1000 64).rc ≠ lzma_ret.LZMA_OK := by
    decide
  exact ⟨hrc, failed_creation toyEngine true 1000 64 none hrc⟩

/-- C4. When the engine's decoder initialisation, called on `LZMA_STREAM_INIT`
with `memlimit` and `flags` as given, returns `LZMA_OK` and leaves the input
window alone, and `malloc` returns storage, `xzdec_new_stream_decoder` returns
`LZMA_OK` (0) and produces a handle whose stream is the stream that
initialisation produced; its input window is empty and `xzdec_input_empty`
returns 1 on it. -/
theorem successful_creation {ι : Type} (E : Engine ι) (hE : InitKeepsInputWindow E)
    (memlimit flags : Nat) (xzdec_ptr : Option (Xzdec ι))
    (hrc : (E.lzma_stream_decoder LZMA_STREAM_INIT memlimit flags).rc = lzma_ret.LZMA_OK) :
    ∃ h : Xzdec ι,
      xzdec_new_stream_decoder E true memlimit flags xzdec_ptr
        = some { rc := lzma_ret.LZMA_OK.toNat, xzdec_ptr := some h, allocated := 1 }
      ∧ h.stream = (E.lzma_stream_decoder LZMA_STREAM_INIT memlimit flags).strm
      ∧ h.stream.avail_in = 0
      ∧ (xzdec_input_empty h).1 = 1 := by
  have hwin : (E.lzma_stream_decoder LZMA_STREAM_INIT memlimit flags).strm.avail_in = 0 :=
    (hE LZMA_STREAM_INIT memlimit flags).2
  refine ⟨{ stream := (E.lzma_stream_decoder LZMA_STREAM_INIT memlimit flags).strm }, ?_, rfl,
    hwin, ?_⟩
  · unfold xzdec_new_stream_decoder
    simp only [hrc, ne_eq, not_true_eq_false, if_false, if_true, to_u32_toNat]
  · unfold xzdec_input_empty
    simp only [hwin, if_true]

/-- Witness of C4: the toy engine accepts the flags `0` with memory limit `1000`. -/
theorem successful_creation_witness :
    InitKeepsInputWindow toyEngine
    ∧ (toyEngine.lzma_stream_decoder LZMA_STREAM_INIT 1000 0).rc = lzma_ret.LZMA_OK
    ∧ ∃ h : Xzdec ToyState,
        xzdec_new_stream_decoder toyEngine true 1000 0 none
          = some { rc := lzma_ret.LZMA_OK.toNat, xzdec_ptr := some h, allocated := 1 }
        ∧ h.stream = (toyEngine.lzma_stream_decoder LZMA_STREAM_INIT 1000 0).strm
        ∧ h.stream.avail_in = 0
        ∧ (xzdec_input_empty h).1 = 1 :=
  ⟨toy_initKeepsInputWindow, by decide,
    successful_creation toyEngine toy_initKeepsInputWindow 1000 0 none (by decide)⟩

/-- C5. After `xzdec_set_input(handle, p, n)` the input window is exactly
`(p, n)` and every other member of the handle's stream is as before; the result
is the same for two handles that differ only in their input window, so a second
`xzdec_set_input` overrides the first whatever was left unread.  The operation
is a total function: it has no failure outcome. -/
theorem set_input_replaces_window {ι : Type} (x : Xzdec ι) (p n : Nat) :
    (xzdec_set_input x p n).stream.next_in = p
    ∧ (xzdec_set_input x p n).stream.avail_in = n
    ∧ (xzdec_set_input x p n).stream.total_in = x.stream.total_in
    ∧ (xzdec_set_input x p n).stream.next_out = x.stream.next_out
    ∧ (xzdec_set_input x p n).stream.avail_out = x.stream.avail_out
    ∧ (xzdec_set_input x p n).stream.total_out = x.stream.total_out
    ∧ (xzdec_set_input x p n).stream.internal = x.stream.internal
    ∧ (∀ q k : Nat,
        xzdec_set_input { stream := { x.stream with next_in := q, avail_in := k } } p n
          = xzdec_set_input x p n)
    ∧ (∀ a la : Nat, xzdec_set_input (xzdec_set_input x a la) p n = xzdec_set_input x p n) :=
  ⟨rfl, rfl, rfl, rfl, rfl, rfl, rfl, fun _ _ => rfl, fun _ _ => rfl⟩

/-- C6. `xzdec_input_empty` returns 1 exactly when the handle's unread-input
count `avail_in` is zero and 0 otherwise, and hands the handle back unchanged;
after `xzdec_set_input(handle, p, n)` it returns 1 exactly when `n = 0`; after
an `xzdec_next_output` or `xzdec_finish` it returns 1 exactly when the engine
step left no unread input, in particular when the step consumed the whole
window. -/
theorem input_empty_exact {ι : Type} (E : Engine ι) (x : Xzdec ι) (p n output_buf_len : Nat)
    (mem : Mem) :
    ((xzdec_input_empty x).1 = 1 ↔ x.stream.avail_in = 0)
    ∧ ((xzdec_input_empty x).1 = 0 ↔ x.stream.avail_in ≠ 0)
    ∧ (xzdec_input_empty x).2 = x
    ∧ ((xzdec_input_empty (xzdec_set_input x p n)).1 = 1 ↔ n = 0)
    ∧ ((xzdec_input_empty (xzdec_next_output E x p n output_buf_len mem).xzdec).1 = 1
        ↔ (E.lzma_code (registered x p n) lzma_action.LZMA_RUN mem).strm.avail_in = 0)
    ∧ ((xzdec_input_empty (xzdec_finish E x p n output_buf_len mem).xzdec).1 = 1
        ↔ (E.lzma_code (registered x p n) lzma_action.LZMA_FINISH mem).strm.avail_in = 0) := by
  have key : ∀ y : Xzdec ι, ((xzdec_input_empty y).1 = 1 ↔ y.stream.avail_in = 0) := by
    intro y
    unfold xzdec_input_empty
    split_ifs with h <;> simp [h]
  refine ⟨key x, ?_, ?_, key _, key _, key _⟩
  · unfold xzdec_input_empty
    split_ifs with h <;> simp [h]
  · unfold xzdec_input_empty
    split_ifs <;> rfl

/-- C7. `xzdec_next_output` is the specified produce-output operation run with
the action `LZMA_RUN` and `xzdec_finish` is the same operation run with
`LZMA_FINISH`: same registered output window, same bytes-written formula, same
status relay.  For an engine whose step ignores the action the two C functions
give equal results (status, bytes written, handle and memory). -/
theorem finish_is_next_output_with_finish {ι : Type} (E : Engine ι) (x : Xzdec ι)
    (output_buf output_buf_cap output_buf_len : Nat) (mem : Mem) :
    xzdec_next_output E x output_buf output_buf_cap output_buf_len mem
        = produce_with E lzma_action.LZMA_RUN x output_buf output_buf_cap output_buf_len mem
    ∧ xzdec_finish E x output_buf output_buf_cap output_buf_len mem
        = produce_with E lzma_action.LZMA_FINISH x output_buf output_buf_cap output_buf_len mem
    ∧ (IgnoresAction E →
        xzdec_finish E x output_buf output_buf_cap output_buf_len mem
          = xzdec_next_output E x output_buf output_buf_cap output_buf_len mem) := by
  refine ⟨?_, ?_, ?_⟩
  · unfold xzdec_next_output produce_with
    simp only [to_u32_toNat]
    rfl
  · unfold xzdec_finish produce_with
    simp only [to_u32_toNat]
    rfl
  · intro h
    unfold xzdec_finish xzdec_next_output
    simp only []
    rw [h _ lzma_action.LZMA_FINISH lzma_action.LZMA_RUN mem]

/-- Witness of C7: the toy engine ignores the action, so `xzdec_finish` and
`xzdec_next_output` agree on a fresh handle with the window `(100, 2)`. -/
theorem finish_is_next_output_with_finish_witness :
    IgnoresAction toyEngine
    ∧ xzdec_finish toyEngine (xzdec_set_input toyFresh 100 2) 200 1 400 toyMem
        = xzdec_next_output toyEngine (xzdec_set_input toyFresh 100 2) 200 1 400 toyMem :=
  ⟨toy_ignoresAction,
    (finish_is_next_output_with_finish toyEngine (xzdec_set_input toyFresh 100 2) 200 1 400
      toyMem).2.2
      toy_ignoresAction⟩

/-- C8, as stated, fails.  With the toy engine, a fresh handle whose window is the
single end-of-stream byte at address `102` and an output capacity of `0`,
`xzdec_next_output` stores 0 bytes written but the status it returns is
`LZMA_STREAM_END` (1), neither `LZMA_BUF_ERROR` (10) nor `LZMA_OK` (0), and the
call did make progress: the one unread input byte was consumed. -/
theorem zero_capacity_status_counterexample :
    (xzdec_next_output toyEngine (xzdec_set_input toyFresh 102 1) 200 0 400 toyMem).output_buf_len = 0
    ∧ (xzdec_next_output toyEngine (xzdec_set_input toyFresh 102 1) 200 0 400 toyMem).rc
        = lzma_ret.LZMA_STREAM_END.toNat
    ∧ (xzdec_next_output toyEngine (xzdec_set_input toyFresh 102 1) 200 0 400 toyMem).rc
        ≠ lzma_ret.LZMA_BUF_ERROR.toNat
    ∧ (xzdec_next_output toyEngine (xzdec_set_input toyFresh 102 1) 200 0 400 toyMem).rc
        ≠ lzma_ret.LZMA_OK.toNat
    ∧ (xzdec_set_input toyFresh 102 1).stream.avail_in = 1
    ∧ (xzdec_next_output toyEngine (xzdec_set_input toyFresh 102 1) 200 0 400
        toyMem).xzdec.stream.avail_in = 0 := by
  decide

/-- C8, amended.  For an engine whose step never increases the remaining output
space, `xzdec_next_output` called with capacity 0 stores 0 in `*output_buf_len`
(the four bytes there hold 0 afterwards) and returns the status of the engine
step unchanged, whatever that status is;
the engine is handed an output window with no space and leaves it so.  The call
is a total function of its arguments. -/
theorem zero_capacity {ι : Type} (E : Engine ι) (hE : KeepsOutputSpace E) (x : Xzdec ι)
    (output_buf output_buf_len : Nat) (mem : Mem) :
    (xzdec_next_output E x output_buf 0 output_buf_len mem).output_buf_len = 0
    ∧ (xzdec_next_output E x output_buf 0 output_buf_len mem).rc
        = (E.lzma_code (registered x output_buf 0) lzma_action.LZMA_RUN mem).rc.toNat
    ∧ (registered x output_buf 0).avail_out = 0
    ∧ (xzdec_next_output E x output_buf 0 output_buf_len mem).xzdec.stream.avail_out = 0
    ∧ (xzdec_next_output E x output_buf 0 output_buf_len mem).mem.load32 output_buf_len = 0 := by
  have h1 := hE (registered x output_buf 0) lzma_action.LZMA_RUN mem
  have r1 : (registered x output_buf 0).avail_out = 0 := rfl
  rw [r1] at h1
  have h0 : (E.lzma_code (registered x output_buf 0) lzma_action.LZMA_RUN mem).strm.avail_out = 0 :=
    Nat.le_zero.mp h1
  have e1 : (xzdec_next_output E x output_buf 0 output_buf_len mem).output_buf_len
      = sub_u32 0 (E.lzma_code (registered x output_buf 0) lzma_action.LZMA_RUN mem).strm.avail_out :=
    rfl
  have hl : (xzdec_next_output E x output_buf 0 output_buf_len mem).mem.load32 output_buf_len
      = (xzdec_next_output E x output_buf 0 output_buf_len mem).output_buf_len :=
    Mem.load32_store32 _ _ _ (sub_u32_lt _ _)
  refine ⟨?_, to_u32_toNat _, rfl, h0, ?_⟩
  · rw [e1, h0]
    decide
  · rw [hl, e1, h0]
    decide

/-- Witness of C8 (amended): the toy engine and a fresh handle with the window `(100, 2)`. -/
theorem zero_capacity_witness :
    KeepsOutputSpace toyEngine
    ∧ (xzdec_next_output toyEngine (xzdec_set_input toyFresh 100 2) 200 0 400 toyMem).output_buf_len = 0
    ∧ (xzdec_next_output toyEngine (xzdec_set_input toyFresh 100 2) 200 0 400 toyMem).rc
        = lzma_ret.LZMA_BUF_ERROR.toNat := by
  have h := zero_capacity toyEngine toy_keepsOutputSpace (xzdec_set_input toyFresh 100 2) 200 400
    toyMem
  refine ⟨toy_keepsOutputSpace, h.1, ?_⟩
  rw [h.2.1]
  decide

/-- C9, as stated, fails.  With the toy engine: (1) after `xzdec_next_output` on a
handle with nothing to read, the handle's stream still holds the output pointer
it was given (`next_out = 200`) and the capacity (`avail_out = 4`); after a call
that wrote one byte it holds the address just past that byte (`201`, or `301`
for a buffer at `300`), so the handle left by the call depends on the output
pointer; (2) a later `xzdec_input_empty` depends on the capacity given to the
earlier call: 0 after a call with capacity 0, 1 after a call with capacity 1. -/
theorem retained_output_pointer_counterexample :
    (xzdec_next_output toyEngine toyFresh 200 4 400 toyMem).xzdec.stream.next_out = 200
    ∧ (xzdec_next_output toyEngine toyFresh 200 4 400 toyMem).xzdec.stream.avail_out = 4
    ∧ (xzdec_next_output toyEngine (xzdec_set_input toyFresh 100 1) 200 1 400
        toyMem).xzdec.stream.next_out = 201
    ∧ (xzdec_next_output toyEngine (xzdec_set_input toyFresh 100 1) 300 1 400
        toyMem).xzdec.stream.next_out = 301
    ∧ (xzdec_input_empty (xzdec_next_output toyEngine (xzdec_set_input toyFresh 100 1) 200 0 400
        toyMem).xzdec).1 = 0
    ∧ (xzdec_input_empty (xzdec_next_output toyEngine (xzdec_set_input toyFresh 100 1) 200 1 400
        toyMem).xzdec).1 = 1 := by
  decide

theorem input_empty_withOutputCursor {ι : Type} (x : Xzdec ι) (a b : Nat) :
    (xzdec_input_empty (withOutputCursor x a b)).1 = (xzdec_input_empty x).1 := by
  unfold xzdec_input_empty withOutputCursor
  simp only
  split_ifs <;> rfl

theorem input_empty_snd {ι : Type} (x : Xzdec ι) : (xzdec_input_empty x).2 = x := by
  unfold xzdec_input_empty
  split_ifs <;> rfl

theorem Session.agree_call {ι : Type} (E : Engine ι) (s₁ s₂ : Session ι) (c : Call)
    (h : s₁.agree s₂) : (s₁.call E c).agree (s₂.call E c) := by
  obtain ⟨hr, hm, a, b, hx⟩ := h
  cases c with
  | set_input p n =>
    refine ⟨?_, hm, a, b, ?_⟩
    · show s₁.returned ++ [[]] = s₂.returned ++ [[]]
      rw [hr]
    · show xzdec_set_input s₁.xzdec p n = withOutputCursor (xzdec_set_input s₂.xzdec p n) a b
      rw [hx]
      rfl
  | input_empty =>
    refine ⟨?_, hm, a, b, ?_⟩
    · show s₁.returned ++ [[(xzdec_input_empty s₁.xzdec).1]]
        = s₂.returned ++ [[(xzdec_input_empty s₂.xzdec).1]]
      rw [hr, hx, input_empty_withOutputCursor]
    · show (xzdec_input_empty s₁.xzdec).2 = withOutputCursor (xzdec_input_empty s₂.xzdec).2 a b
      rw [input_empty_snd, input_empty_snd, hx]
  | next_output p n l =>
    have e : xzdec_next_output E s₁.xzdec p n l s₁.mem = xzdec_next_output E s₂.xzdec p n l s₂.mem := by
      rw [hx, hm]
      rfl
    refine ⟨?_, ?_, ?_⟩
    · show s₁.returned ++ [[(xzdec_next_output E s₁.xzdec p n l s₁.mem).rc,
          (xzdec_next_output E s₁.xzdec p n l s₁.mem).output_buf_len]]
        = s₂.returned ++ [[(xzdec_next_output E s₂.xzdec p n l s₂.mem).rc,
          (xzdec_next_output E s₂.xzdec p n l s₂.mem).output_buf_len]]
      rw [hr, e]
    · show (xzdec_next_output E s₁.xzdec p n l s₁.mem).mem
        = (xzdec_next_output E s₂.xzdec p n l s₂.mem).mem
      rw [e]
    · refine ⟨(xzdec_next_output E s₂.xzdec p n l s₂.mem).xzdec.stream.next_out,
        (xzdec_next_output E s₂.xzdec p n l s₂.mem).xzdec.stream.avail_out, ?_⟩
      show (xzdec_next_output E s₁.xzdec p n l s₁.mem).xzdec = _
      rw [e]
      rfl
  | finish p n l =>
    have e : xzdec_finish E s₁.xzdec p n l s₁.mem = xzdec_finish E s₂.xzdec p n l s₂.mem := by
      rw [hx, hm]
      rfl
    refine ⟨?_, ?_, ?_⟩
    · show s₁.returned ++ [[(xzdec_finish E s₁.xzdec p n l s₁.mem).rc,
          (xzdec_finish E s₁.xzdec p n l s₁.mem).output_buf_len]]
        = s₂.returned ++ [[(xzdec_finish E s₂.xzdec p n l s₂.mem).rc,
          (xzdec_finish E s₂.xzdec p n l s₂.mem).output_buf_len]]
      rw [hr, e]
    · show (xzdec_finish E s₁.xzdec p n l s₁.mem).mem = (xzdec_finish E s₂.xzdec p n l s₂.mem).mem
      rw [e]
    · refine ⟨(xzdec_finish E s₂.xzdec p n l s₂.mem).xzdec.stream.next_out,
        (xzdec_finish E s₂.xzdec p n l s₂.mem).xzdec.stream.avail_out, ?_⟩
      show (xzdec_finish E s₁.xzdec p n l s₁.mem).xzdec = _
      rw [e]
      rfl

theorem Session.agree_calls {ι : Type} (E : Engine ι) (cs : List Call) :
    ∀ s₁ s₂ : Session ι, s₁.agree s₂ → (s₁.calls E cs).agree (s₂.calls E cs) := by
  induction cs with
  | nil => intro s₁ s₂ h; exact h
  | cons c cs ih =>
    intro s₁ s₂ h
    exact ih _ _ (Session.agree_call E s₁ s₂ c h)

/-- C9, amended.  The output cursor (`next_out`, `avail_out`) an earlier call left
in the handle is never read by a later call of the wrapper.  Whatever values
`a`, `b` those two members hold, `xzdec_next_output` and `xzdec_finish` give the
same result (they overwrite both before the engine runs), and every sequence of
later calls (`xzdec_set_input`, `xzdec_input_empty`, `xzdec_next_output`,
`xzdec_finish`) returns the same values and leaves the same memory, the handles
differing at most in that cursor. -/
theorem stale_output_cursor_unused {ι : Type} (E : Engine ι) (x : Xzdec ι) (a b : Nat)
    (output_buf output_buf_cap output_buf_len : Nat) (mem : Mem) (cs : List Call) :
    xzdec_next_output E (withOutputCursor x a b) output_buf output_buf_cap output_buf_len mem
      = xzdec_next_output E x output_buf output_buf_cap output_buf_len mem
    ∧ xzdec_finish E (withOutputCursor x a b) output_buf output_buf_cap output_buf_len mem
      = xzdec_finish E x output_buf output_buf_cap output_buf_len mem
    ∧ (Session.calls E { xzdec := withOutputCursor x a b, mem := mem, returned := [] } cs).returned
      = (Session.calls E { xzdec := x, mem := mem, returned := [] } cs).returned
    ∧ (Session.calls E { xzdec := withOutputCursor x a b, mem := mem, returned := [] } cs).mem
      = (Session.calls E { xzdec := x, mem := mem, returned := [] } cs).mem
    ∧ (∃ a' b' : Nat,
        (Session.calls E { xzdec := withOutputCursor x a b, mem := mem, returned := [] } cs).xzdec
          = withOutputCursor (Session.calls E { xzdec := x, mem := mem, returned := [] } cs).xzdec
              a' b') := by
  have h := Session.agree_calls E cs { xzdec := withOutputCursor x a b, mem := mem, returned := [] }
    { xzdec := x, mem := mem, returned := [] } ⟨rfl, rfl, a, b, rfl⟩
  exact ⟨rfl, rfl, h.1, h.2.1, h.2.2⟩

/-! ### Byte decoders -/

end XZ
